import Mathlib

set_option autoImplicit false

/-!
Verification of the `wheecious.kener` Ansible collection (monitor module).

The development shallowly embeds the Python sources
`plugins/modules/monitor.py`, `plugins/module_utils/common.py` and
`plugins/module_utils/monitor_utils.py`.  Python runtime values are
modelled by `Kener.PVal` (the JSON-like fragment the module manipulates:
`None`, booleans, integers, strings, lists and string-keyed dicts);
Python exceptions and `fail_json` aborts are modelled by `Except`.
-/

namespace Kener

/-- The fragment of Python values the module manipulates: `None`, `bool`,
`int`, `str`, `list` and string-keyed `dict` (insertion-ordered, as in
Python 3.7+).  Floats never occur in the module's data and are outside the
modelled fragment. -/
inductive PVal where
  | none
  | bool (b : Bool)
  | int (n : Int)
  | str (s : String)
  | list (elts : List PVal)
  | dict (fields : List (String × PVal))

mutual
/-- Structural (syntactic) equality test on `PVal`. -/
def pvalBeq : PVal → PVal → Bool
  | PVal.none, PVal.none => true
  | PVal.bool a, PVal.bool b => a == b
  | PVal.int a, PVal.int b => a == b
  | PVal.str a, PVal.str b => a == b
  | PVal.list xs, PVal.list ys => plistBeq xs ys
  | PVal.dict xs, PVal.dict ys => pkvsBeq xs ys
  | _, _ => false

/-- `pvalBeq` lifted to lists of values. -/
def plistBeq : List PVal → List PVal → Bool
  | [], [] => true
  | x :: xs, y :: ys => pvalBeq x y && plistBeq xs ys
  | _, _ => false

/-- `pvalBeq` lifted to association lists. -/
def pkvsBeq : List (String × PVal) → List (String × PVal) → Bool
  | [], [] => true
  | (k, v) :: xs, (k', v') :: ys => k == k' && pvalBeq v v' && pkvsBeq xs ys
  | _, _ => false
end

/-- A Python dict with string keys, as an insertion-ordered association
list.  Python dicts cannot contain a key twice; dicts built by the
embedded code never do. -/
abbrev Dict := List (String × PVal)

/-- `d[k]` lookup that distinguishes a missing key (first binding wins,
which on duplicate-free dicts is Python's unique binding). -/
def dlookup (d : Dict) (k : String) : Option PVal :=
  match d with
  | [] => Option.none
  | (k', v) :: rest => if k' = k then some v else dlookup rest k

/-- Python `d[k] = v`: overwrite the binding in place if the key exists,
else append the new binding at the end (insertion order). -/
def dset (d : Dict) (k : String) (v : PVal) : Dict :=
  match d with
  | [] => [(k, v)]
  | (k', v') :: rest => if k' = k then (k, v) :: rest else (k', v') :: dset rest k v

/-- The key list of a dict, in iteration (insertion) order: `for k in d`. -/
def dkeys (d : Dict) : List String := d.map Prod.fst

/-- Python truthiness (`if not value:`): `None`, `False`, `0`, `""`, `[]`
and an empty dict are falsy. -/
def truthy : PVal → Bool
  | PVal.none => false
  | PVal.bool b => b
  | PVal.int n => n != 0
  | PVal.str s => !(s == "")
  | PVal.list xs => !xs.isEmpty
  | PVal.dict kvs => !kvs.isEmpty

/-- Insert a key/value pair into a key-sorted association list. -/
def insertKV (p : String × PVal) : List (String × PVal) → List (String × PVal)
  | [] => [p]
  | q :: rest => if p.1 ≤ q.1 then p :: q :: rest else q :: insertKV p rest

/-- Sort an association list by key (insertion sort). -/
def sortKVs : List (String × PVal) → List (String × PVal)
  | [] => []
  | p :: rest => insertKV p (sortKVs rest)

mutual
/-- Canonical form of a value, chosen so that two values are Python-`==`
equal iff their canonical forms are syntactically equal: dict entries are
key-sorted (Python dict equality ignores insertion order) and booleans
become integers (Python has `True == 1` and `False == 0`). -/
def canon : PVal → PVal
  | PVal.none => PVal.none
  | PVal.bool b => PVal.int (if b then 1 else 0)
  | PVal.int n => PVal.int n
  | PVal.str s => PVal.str s
  | PVal.list xs => PVal.list (canonList xs)
  | PVal.dict kvs => PVal.dict (sortKVs (canonKVs kvs))

/-- `canon` mapped over a list of values. -/
def canonList : List PVal → List PVal
  | [] => []
  | x :: xs => canon x :: canonList xs

/-- `canon` mapped over the values of an association list. -/
def canonKVs : List (String × PVal) → List (String × PVal)
  | [] => []
  | (k, v) :: rest => (k, canon v) :: canonKVs rest
end

/-- Python `==` on the modelled value fragment (deep structural equality,
with dict comparison insensitive to key order and `True == 1`): two
values are equal iff their canonical forms coincide syntactically. -/
def pyEq (a b : PVal) : Bool := pvalBeq (canon a) (canon b)

/-! ### A model of `json.loads`

`is_changed` calls `json.loads` on the remote record's `type_data` field.
The parser below models `json.loads` on the JSON fragment the module's
data lives in: `null`, booleans, integers, strings without escape
sequences, arrays and objects.  It is fuel-bounded to stay total; the
fuel supplied by `json_loads` suffices for every input whose parse this
development evaluates. -/

/-- JSON whitespace. -/
def isWsChar (c : Char) : Bool :=
  c = ' ' || c = '\t' || c = '\n' || c = '\r'

/-- Drop leading JSON whitespace. -/
def skipWs : List Char → List Char
  | [] => []
  | c :: cs => if isWsChar c then skipWs cs else c :: cs

/-- Scan a JSON string body up to the closing quote (escape sequences are
outside the modelled fragment and make the parse fail). -/
def scanString : List Char → Option (String × List Char)
  | [] => Option.none
  | c :: cs =>
    if c = '"' then some ("", cs)
    else if c = '\\' then Option.none
    else
      match scanString cs with
      | some (s, rest) => some (String.mk (c :: s.data), rest)
      | Option.none => Option.none

/-- Split a leading run of decimal digits off a character list. -/
def scanDigits : List Char → (List Char × List Char)
  | [] => ([], [])
  | c :: cs =>
    if c.isDigit then
      let p := scanDigits cs
      (c :: p.1, p.2)
    else ([], c :: cs)

/-- Decimal value of a digit run. -/
def digitsToNat (ds : List Char) : Nat :=
  ds.foldl (fun acc c => acc * 10 + (c.toNat - 48)) 0

mutual
/-- Parse one JSON value (fuel-bounded recursive descent). -/
def parseVal : Nat → List Char → Option (PVal × List Char)
  | 0, _ => Option.none
  | Nat.succ fuel, cs0 =>
    match skipWs cs0 with
    | [] => Option.none
    | c :: cs =>
      if c = 'n' then
        match cs with
        | 'u' :: 'l' :: 'l' :: rest => some (PVal.none, rest)
        | _ => Option.none
      else if c = 't' then
        match cs with
        | 'r' :: 'u' :: 'e' :: rest => some (PVal.bool true, rest)
        | _ => Option.none
      else if c = 'f' then
        match cs with
        | 'a' :: 'l' :: 's' :: 'e' :: rest => some (PVal.bool false, rest)
        | _ => Option.none
      else if c = '"' then
        match scanString cs with
        | some (s, rest) => some (PVal.str s, rest)
        | Option.none => Option.none
      else if c = '-' then
        match scanDigits cs with
        | ([], _) => Option.none
        | (ds, rest) => some (PVal.int (-(digitsToNat ds : Int)), rest)
      else if c.isDigit then
        some (PVal.int (digitsToNat (scanDigits (c :: cs)).1), (scanDigits (c :: cs)).2)
      else if c = '[' then
        match skipWs cs with
        | ']' :: rest => some (PVal.list [], rest)
        | _ =>
          match parseItems fuel cs with
          | some (vs, rest) => some (PVal.list vs, rest)
          | Option.none => Option.none
      else if c = Char.ofNat 123 then
        match skipWs cs with
        | d :: rest =>
          if d = Char.ofNat 125 then some (PVal.dict [], rest)
          else
            match parseMembers fuel cs with
            | some (kvs, rest') => some (PVal.dict kvs, rest')
            | Option.none => Option.none
        | [] => Option.none
      else Option.none

/-- Parse the comma-separated items of a non-empty JSON array, including
the closing bracket. -/
def parseItems : Nat → List Char → Option (List PVal × List Char)
  | 0, _ => Option.none
  | Nat.succ fuel, cs =>
    match parseVal fuel cs with
    | some (v, rest) =>
      match skipWs rest with
      | ',' :: rest' =>
        match parseItems fuel rest' with
        | some (vs, rest'') => some (v :: vs, rest'')
        | Option.none => Option.none
      | ']' :: rest' => some ([v], rest')
      | _ => Option.none
    | Option.none => Option.none

/-- Parse the comma-separated members of a non-empty JSON object,
including the closing brace. -/
def parseMembers : Nat → List Char → Option (List (String × PVal) × List Char)
  | 0, _ => Option.none
  | Nat.succ fuel, cs =>
    match skipWs cs with
    | '"' :: cs' =>
      match scanString cs' with
      | some (k, rest) =>
        match skipWs rest with
        | ':' :: rest' =>
          match parseVal fuel rest' with
          | some (v, rest'') =>
            match skipWs rest'' with
            | ',' :: rest3 =>
              match parseMembers fuel rest3 with
              | some (kvs, rest4) => some ((k, v) :: kvs, rest4)
              | Option.none => Option.none
            | d :: rest3 =>
              if d = Char.ofNat 125 then some ([(k, v)], rest3)
              else Option.none
            | [] => Option.none
          | Option.none => Option.none
        | _ => Option.none
      | Option.none => Option.none
    | _ => Option.none
end

/-- Model of Python `json.loads` on a string: parse one JSON value and
require the remainder to be whitespace. -/
def json_loads (s : String) : Option PVal :=
  match parseVal (2 * s.length + 2) s.data with
  | some (v, rest) => if (skipWs rest).isEmpty then some v else Option.none
  | Option.none => Option.none

/-! ### Python exceptions and module aborts -/

/-- The ways the embedded Python code can abort: uncaught exceptions
(`AttributeError`, `KeyError`, `TypeError`, `json.JSONDecodeError`) and
`AnsibleModule.fail_json`, which exits the module process with a failure
message. -/
inductive PyErr where
  | attributeError (attr : String)
  | keyError (k : String)
  | typeError (msg : String)
  | jsonDecodeError (doc : String)
  | failJson (msg : String)
deriving DecidableEq

instance {ε α : Type} [DecidableEq ε] [DecidableEq α] : DecidableEq (Except ε α) := fun x y =>
  match x, y with
  | Except.ok a, Except.ok b =>
    if h : a = b then isTrue (by rw [h]) else isFalse (fun hc => h (by injection hc))
  | Except.error a, Except.error b =>
    if h : a = b then isTrue (by rw [h]) else isFalse (fun hc => h (by injection hc))
  | Except.ok _, Except.error _ => isFalse (fun hc => Except.noConfusion hc)
  | Except.error _, Except.ok _ => isFalse (fun hc => Except.noConfusion hc)

/-- Python subscript `d[k]`: the value, or a `KeyError`. -/
def dget (d : Dict) (k : String) : Except PyErr PVal :=
  match dlookup d k with
  | some v => Except.ok v
  | Option.none => Except.error (PyErr.keyError k)

/-- Python `d.get(k)`: `None` when the key is absent. -/
def dgetDefault (d : Dict) (k : String) : PVal :=
  (dlookup d k).getD PVal.none

/-- Python `v.get(k)` on an arbitrary value: only dicts have a `get`
method; on anything else (in particular `None`) attribute lookup fails. -/
def py_get (v : PVal) (k : String) : Except PyErr PVal :=
  match v with
  | PVal.dict kvs => Except.ok (dgetDefault kvs k)
  | _ => Except.error (PyErr.attributeError "get")

/-- `json.loads` as called on a Python value: a string is parsed (a parse
failure raises `json.JSONDecodeError`); any non-string argument — in
particular `None`, the case the source's TODO comment acknowledges —
raises `TypeError`. -/
def json_loads_py : PVal → Except PyErr PVal
  | PVal.str s =>
    match json_loads s with
    | some v => Except.ok v
    | Option.none => Except.error (PyErr.jsonDecodeError s)
  | _ => Except.error (PyErr.typeError "the JSON object must be str, bytes or bytearray, not NoneType")

/-- Python f-string formatting of the scalar values that reach f-strings
in the module (tags and ids are strings or integers).  Formatting of
lists and dicts is abbreviated; no theorem depends on it. -/
def py_fstr : PVal → String
  | PVal.str s => s
  | PVal.int n => toString n
  | PVal.bool b => if b then "True" else "False"
  | PVal.none => "None"
  | PVal.list _ => "[...]"
  | PVal.dict _ => "[...]"

/-! ### `module_utils/common.py`: `is_changed`

```python
def is_changed(params, existing_params):
    for param in params:
        existing_param = existing_params[param]
        if param == 'type_data':
            # TODO parse type_data even if null
            existing_param = json.loads(existing_params['type_data'])
        if params[param] != existing_param:
            return True
    return False
```
-/

/-- The value of `existing_params` used for the comparison at key
`param`: the subscript `existing_params[param]` (a `KeyError` when the
remote record lacks the key), re-read and JSON-decoded when the key is
`type_data`. -/
def remote_value (existing_params : Dict) (param : String) : Except PyErr PVal :=
  match dlookup existing_params param with
  | Option.none => Except.error (PyErr.keyError param)
  | some ep =>
    if param = "type_data" then
      match dlookup existing_params "type_data" with
      | Option.none => Except.error (PyErr.keyError "type_data")
      | some raw => json_loads_py raw
    else Except.ok ep

/-- The `for param in params` loop of `is_changed`, iterating over the
listed keys. -/
def is_changed_go (params existing_params : Dict) : List String → Except PyErr Bool
  | [] => Except.ok false
  | param :: rest =>
    match remote_value existing_params param with
    | Except.error e => Except.error e
    | Except.ok existing_param =>
      match dlookup params param with
      | Option.none => Except.error (PyErr.keyError param)
      | some pv =>
        if pyEq pv existing_param then is_changed_go params existing_params rest
        else Except.ok true

/-- `is_changed(params, existing_params)` from `common.py`: scan the keys
of `params` in iteration order; return `True` at the first key whose
value differs from the remote one (`type_data` being decoded first),
`False` when every key matches.  Exceptions propagate. -/
def is_changed (params existing_params : Dict) : Except PyErr Bool :=
  is_changed_go params existing_params (dkeys params)

/-- Following the spec's words for the no-op condition ("every key in
`build(D)` deep-equals the corresponding (decoded) key in R"): the
desired value at key `k` exists, the remote value at `k` can be fetched
(decoded, for `type_data`), and the two are Python-equal. -/
def keyMatchesB (P R : Dict) (k : String) : Bool :=
  match dlookup P k, remote_value R k with
  | some pv, Except.ok rv => pyEq pv rv
  | _, _ => false

/-- Every key of the desired payload `P` deep-equals the corresponding
(decoded) value of the remote record `R` — the spec's condition for "no
difference". -/
def allB (P R : Dict) : Bool := (dkeys P).all (keyMatchesB P R)

/-! ### `module_utils/monitor_utils.py`: `required_fields`, `build_payload` -/

/-- The `required_fields` table: subtype-specific mandatory fields, with
`Option.none` for monitor types that are not keys of the table. -/
def required_fields (monitor_type : String) : Option (List String) :=
  if monitor_type = "API" then some ["url", "method", "timeout"]
  else if monitor_type = "SSL" then
    some ["host", "port", "degradedRemainingHours", "downRemainingHours"]
  else if monitor_type = "DNS" then
    some ["lookupRecord", "nameServer", "matchType", "values"]
  else Option.none

/-- A Python object as far as the embedded code's attribute accesses are
concerned: either an `AnsibleModule` (which has `.params` and
`.fail_json`) or the plain params dict that `main` actually passes to
`build_payload`. -/
inductive PyObj where
  | moduleObj (params : Dict)
  | dictObj (d : Dict)

/-- Attribute access `module.params`: a plain dict has no such attribute,
so the access raises `AttributeError`. -/
def getattr_params : PyObj → Except PyErr Dict
  | PyObj.moduleObj params => Except.ok params
  | PyObj.dictObj _ => Except.error (PyErr.attributeError "params")

/-- `module.fail_json(msg=...)`: on a real module it exits the process
with a failure (it never returns); on a plain dict the attribute access
itself raises `AttributeError`. -/
def fail_json {α : Type} (module : PyObj) (msg : String) : Except PyErr α :=
  match module with
  | PyObj.moduleObj _ => Except.error (PyErr.failJson msg)
  | PyObj.dictObj _ => Except.error (PyErr.attributeError "fail_json")

/-- The `for field in required_fields[monitor_type]` validation loop of
`build_payload`: `fail_json` at the first required field whose value in
`params['monitor']` is falsy (`.get` returns `None` for absent keys). -/
def check_required (module : PyObj) (monitor : PVal) (mt : String) :
    List String → Except PyErr Unit
  | [] => Except.ok ()
  | f :: rest =>
    match py_get monitor f with
    | Except.error e => Except.error e
    | Except.ok v =>
      if truthy v then check_required module monitor mt rest
      else fail_json module (f ++ " is required for " ++ mt)

/-- The first field of `fields` whose value in the monitor dict `mkvs` is
falsy (absent keys read as `None` via `.get`) — the field
`check_required` aborts on, if any. -/
def firstMissing (mkvs : Dict) (fields : List String) : Option String :=
  fields.find? (fun f => !truthy (dgetDefault mkvs f))

/-- `build_payload(module)` from `monitor_utils.py`, translated
line-by-line: read `module.params`, read `monitor_type`, build the base
payload dict, then attach `type_data` — for `TCP`/`PING` by wrapping the
`hosts` parameter (no validation at all), for monitor types in
`required_fields` by validating and attaching `params['monitor']`, and
for anything else not at all. -/
def build_payload (module : PyObj) : Except PyErr Dict :=
  match getattr_params module with
  | Except.error e => Except.error e
  | Except.ok params =>
  match dget params "monitor_type" with
  | Except.error e => Except.error e
  | Except.ok monitor_type =>
  match dget params "name" with
  | Except.error e => Except.error e
  | Except.ok vname =>
  match dget params "tag" with
  | Except.error e => Except.error e
  | Except.ok vtag =>
  match dget params "status" with
  | Except.error e => Except.error e
  | Except.ok vstatus =>
  match dget params "cron" with
  | Except.error e => Except.error e
  | Except.ok vcron =>
  match dget params "category_name" with
  | Except.error e => Except.error e
  | Except.ok vcat =>
  let payload : Dict :=
    [("name", vname), ("tag", vtag), ("status", vstatus), ("cron", vcron),
     ("category_name", vcat), ("monitor_type", monitor_type)]
  if pyEq monitor_type (PVal.str "TCP") || pyEq monitor_type (PVal.str "PING") then
    match dget params "hosts" with
    | Except.error e => Except.error e
    | Except.ok hosts =>
      Except.ok (payload ++ [("type_data", PVal.dict [("hosts", hosts)])])
  else
    match monitor_type with
    | PVal.str mt =>
      (match required_fields mt with
       | some fields =>
         (match dget params "monitor" with
          | Except.error e => Except.error e
          | Except.ok monitor =>
            match check_required module monitor mt fields with
            | Except.error e => Except.error e
            | Except.ok _ => Except.ok (payload ++ [("type_data", monitor)]))
       | Option.none => Except.ok payload)
    | _ => Except.ok payload

/-! ### `modules/monitor.py`: `main`

The Remote Client (`make_api_request` / HTTP transport) is the external
collaborator; its responses are supplied as an environment.  The model
records every request `main` issues, in order. -/

/-- An HTTP request issued through `make_api_request`. -/
inductive Request where
  | get (path : String)
  | post (path : String) (body : Dict)
  | put (path : String) (body : Dict)
  | delete (path : String)

/-- The remote service's responses for one invocation: the decoded body
of `GET /api/monitor?tag=...` (a list of matching records — dicts — with
`[]` also covering a `None` body, both falsy) and the decoded body of
`POST /api/monitor`. -/
structure Server where
  lookupResult : List Dict
  postResult : PVal

/-- How one invocation of `main` ends: `module.exit_json` with a changed
flag and optional message, falling off the end of `main` without exiting
(a `state` other than `present`/`absent`), or an abort (uncaught
exception or `fail_json`). -/
inductive Outcome where
  | exited (changed : Bool) (msg : Option PVal)
  | fellThrough
  | crashed (e : PyErr)

/-- The body of `main` after `AnsibleModule` construction, parametrised
by the argument handed to `build_payload` (the shipped code passes
`module.params`, a plain dict — see `main_model`).  Returns the outcome
together with the requests issued, in order. -/
def main_core (barg : PyObj) (params : Dict) (srv : Server) :
    Outcome × List Request :=
  match dget params "state" with
  | Except.error e => (Outcome.crashed e, [])
  | Except.ok state =>
  match build_payload barg with
  | Except.error e => (Outcome.crashed e, [])
  | Except.ok payload =>
  if pyEq state (PVal.str "present") then
    match dget payload "tag" with
    | Except.error e => (Outcome.crashed e, [])
    | Except.ok tagv =>
      let getReq := Request.get ("/api/monitor?tag=" ++ py_fstr tagv)
      match srv.lookupResult with
      | [] =>
        (Outcome.exited true (some srv.postResult),
         [getReq, Request.post "/api/monitor" payload])
      | existing0 :: _ =>
        match is_changed payload existing0 with
        | Except.error e => (Outcome.crashed e, [getReq])
        | Except.ok true =>
          match dget existing0 "id" with
          | Except.error e => (Outcome.crashed e, [getReq])
          | Except.ok idv =>
            (Outcome.exited true Option.none,
             [getReq, Request.put ("/api/monitor/" ++ py_fstr idv) (dset payload "id" idv)])
        | Except.ok false =>
          (Outcome.exited false
            (some (PVal.str ("Monitor " ++ py_fstr tagv ++ " with the same parameters already exists"))),
           [getReq])
  else if pyEq state (PVal.str "absent") then
    match dget payload "tag" with
    | Except.error e => (Outcome.crashed e, [])
    | Except.ok tagv =>
      let getReq := Request.get ("/api/monitor?tag=" ++ py_fstr tagv)
      match srv.lookupResult with
      | [] =>
        (Outcome.exited false (some (PVal.str ("No monitor " ++ py_fstr tagv ++ " found"))),
         [getReq])
      | existing0 :: _ =>
        match dget existing0 "id" with
        | Except.error e => (Outcome.crashed e, [getReq])
        | Except.ok idv =>
          (Outcome.exited true (some (PVal.str ("Monitor " ++ py_fstr tagv ++ " was removed"))),
           [getReq, Request.delete ("/api/monitor/" ++ py_fstr idv)])
  else (Outcome.fellThrough, [])

/-- `main` exactly as shipped: line 350 reads
`payload = build_payload(module.params)`, handing `build_payload` the
plain params dict rather than the module object. -/
def main_model (params : Dict) (srv : Server) : Outcome × List Request :=
  main_core (PyObj.dictObj params) params srv

/-- Modelled from the spec: `main` with the `build_payload` call-site
slip repaired to pass the module object, as the module's own
`DOCUMENTATION` block (create/update/delete, full idempotency via
tag lookup and comparison) and the spec's Reconciler state machine
describe.  Identical to `main_model` in every other respect. -/
def main_fixed (params : Dict) (srv : Server) : Outcome × List Request :=
  main_core (PyObj.moduleObj params) params srv

/-! ### Concrete invocation fixtures (used by witnesses and
counterexamples) -/

/-- A fully populated `PING` invocation's parameter dict. -/
def pingParams (state tag : String) : Dict :=
  [("state", PVal.str state), ("name", PVal.str "Kener Monitor"),
   ("tag", PVal.str tag), ("status", PVal.str "ACTIVE"),
   ("cron", PVal.str "* * * * *"), ("category_name", PVal.str "Home"),
   ("monitor_type", PVal.str "PING"),
   ("hosts", PVal.list [PVal.dict [("host", PVal.str "127.0.0.1")]])]

/-- The payload `build_payload` produces for `pingParams`. -/
def pingPayload (tag : String) : Dict :=
  [("name", PVal.str "Kener Monitor"), ("tag", PVal.str tag),
   ("status", PVal.str "ACTIVE"), ("cron", PVal.str "* * * * *"),
   ("category_name", PVal.str "Home"), ("monitor_type", PVal.str "PING"),
   ("type_data", PVal.dict [("hosts", PVal.list [PVal.dict [("host", PVal.str "127.0.0.1")]])])]

/-- A remote record matching `pingPayload`, with its `type_data`
sub-document JSON-encoded as the service returns it. -/
def pingRemote (tag : String) : Dict :=
  [("id", PVal.str "abc"), ("name", PVal.str "Kener Monitor"),
   ("tag", PVal.str tag), ("status", PVal.str "ACTIVE"),
   ("cron", PVal.str "* * * * *"), ("category_name", PVal.str "Home"),
   ("monitor_type", PVal.str "PING"),
   ("type_data", PVal.str "\x7b\"hosts\": [\x7b\"host\": \"127.0.0.1\"\x7d]\x7d")]

/-- A fully populated `API` invocation's parameter dict. -/
def apiParams (state tag : String) : Dict :=
  [("state", PVal.str state), ("name", PVal.str "Kener Monitor"),
   ("tag", PVal.str tag), ("status", PVal.str "ACTIVE"),
   ("cron", PVal.str "* * * * *"), ("category_name", PVal.str "Home"),
   ("monitor_type", PVal.str "API"),
   ("monitor", PVal.dict [("url", PVal.str "http://x"), ("method", PVal.str "GET"),
      ("timeout", PVal.int 3000)])]

/-- The payload `build_payload` produces for `apiParams`. -/
def apiPayload (tag : String) : Dict :=
  [("name", PVal.str "Kener Monitor"), ("tag", PVal.str tag),
   ("status", PVal.str "ACTIVE"), ("cron", PVal.str "* * * * *"),
   ("category_name", PVal.str "Home"), ("monitor_type", PVal.str "API"),
   ("type_data", PVal.dict [("url", PVal.str "http://x"), ("method", PVal.str "GET"),
      ("timeout", PVal.int 3000)])]

/-- An `API` invocation whose `monitor` dict lacks the required `url`. -/
def apiParamsNoUrl (state tag : String) : Dict :=
  [("state", PVal.str state), ("name", PVal.str "Kener Monitor"),
   ("tag", PVal.str tag), ("status", PVal.str "ACTIVE"),
   ("cron", PVal.str "* * * * *"), ("category_name", PVal.str "Home"),
   ("monitor_type", PVal.str "API"),
   ("monitor", PVal.dict [("method", PVal.str "GET"), ("timeout", PVal.int 3000)])]

/-- A `PING` invocation whose `hosts` parameter is the empty list (the
spec's table demands a non-empty host list for the host-probe family). -/
def pingParamsEmptyHosts (state tag : String) : Dict :=
  [("state", PVal.str state), ("name", PVal.str "Kener Monitor"),
   ("tag", PVal.str tag), ("status", PVal.str "ACTIVE"),
   ("cron", PVal.str "* * * * *"), ("category_name", PVal.str "Home"),
   ("monitor_type", PVal.str "PING"), ("hosts", PVal.list [])]

/-! ## Lemmas -/

mutual
theorem pvalBeq_iff : ∀ (a b : PVal), pvalBeq a b = true ↔ a = b
  | PVal.none, b => by cases b <;> simp [pvalBeq]
  | PVal.bool _, b => by cases b <;> simp [pvalBeq]
  | PVal.int _, b => by cases b <;> simp [pvalBeq]
  | PVal.str _, b => by cases b <;> simp [pvalBeq]
  | PVal.list xs, PVal.none => by simp [pvalBeq]
  | PVal.list xs, PVal.bool _ => by simp [pvalBeq]
  | PVal.list xs, PVal.int _ => by simp [pvalBeq]
  | PVal.list xs, PVal.str _ => by simp [pvalBeq]
  | PVal.list xs, PVal.list ys => by simpa [pvalBeq] using plistBeq_iff xs ys
  | PVal.list xs, PVal.dict _ => by simp [pvalBeq]
  | PVal.dict xs, PVal.none => by simp [pvalBeq]
  | PVal.dict xs, PVal.bool _ => by simp [pvalBeq]
  | PVal.dict xs, PVal.int _ => by simp [pvalBeq]
  | PVal.dict xs, PVal.str _ => by simp [pvalBeq]
  | PVal.dict xs, PVal.list _ => by simp [pvalBeq]
  | PVal.dict xs, PVal.dict ys => by simpa [pvalBeq] using pkvsBeq_iff xs ys

theorem plistBeq_iff : ∀ (xs ys : List PVal), plistBeq xs ys = true ↔ xs = ys
  | [], [] => by simp [plistBeq]
  | [], _ :: _ => by simp [plistBeq]
  | _ :: _, [] => by simp [plistBeq]
  | x :: xs, y :: ys => by
      simp [plistBeq, pvalBeq_iff x y, plistBeq_iff xs ys]

theorem pkvsBeq_iff : ∀ (xs ys : List (String × PVal)), pkvsBeq xs ys = true ↔ xs = ys
  | [], [] => by simp [pkvsBeq]
  | [], _ :: _ => by simp [pkvsBeq]
  | _ :: _, [] => by simp [pkvsBeq]
  | (k, v) :: xs, (k', v') :: ys => by
      simp [pkvsBeq, pvalBeq_iff v v', pkvsBeq_iff xs ys, and_assoc]
end

instance : DecidableEq PVal := fun a b =>
  decidable_of_iff (pvalBeq a b = true) (pvalBeq_iff a b)

deriving instance DecidableEq for Request

deriving instance DecidableEq for Outcome

theorem pyEq_eq_true_iff {a b : PVal} : pyEq a b = true ↔ canon a = canon b := by
  simpa [pyEq] using pvalBeq_iff (canon a) (canon b)

theorem pyEq_refl (v : PVal) : pyEq v v = true :=
  pyEq_eq_true_iff.mpr rfl

theorem pyEq_eq_false_iff {a b : PVal} : pyEq a b = false ↔ canon a ≠ canon b := by
  rw [← Bool.not_eq_true, not_iff_not.mpr pyEq_eq_true_iff]

/-- If `a` is Python-equal to `b` and `c` is not Python-equal to `a`,
then `c` is not Python-equal to `b`. -/
theorem pyEq_trans_ne {a b c : PVal} (hab : pyEq a b = true)
    (hca : pyEq c a = false) : pyEq c b = false := by
  rw [pyEq_eq_true_iff] at hab
  rw [pyEq_eq_false_iff] at hca ⊢
  rw [← hab]
  exact hca

theorem pyEq_str_str (a b : String) : pyEq (PVal.str a) (PVal.str b) = (a == b) := rfl

theorem dkeys_cons (k : String) (v : PVal) (rest : Dict) :
    dkeys ((k, v) :: rest) = k :: dkeys rest := rfl

theorem dlookup_isSome_of_mem_dkeys {d : Dict} {k : String} (h : k ∈ dkeys d) :
    (dlookup d k).isSome = true := by
  induction d with
  | nil => simp [dkeys] at h
  | cons p rest ih =>
    obtain ⟨k', v'⟩ := p
    have h' : k = k' ∨ k ∈ dkeys rest := by
      simpa only [dkeys_cons, List.mem_cons] using h
    rcases h' with h1 | h1
    · subst h1
      simp [dlookup]
    · by_cases hk : k' = k
      · simp [dlookup, hk]
      · simp [dlookup, hk, ih h1]

theorem dlookup_dset_self (d : Dict) (k : String) (v : PVal) :
    dlookup (dset d k v) k = some v := by
  induction d with
  | nil => simp [dset, dlookup]
  | cons p rest ih =>
    obtain ⟨k', v'⟩ := p
    by_cases h : k' = k
    · simp [dset, h, dlookup]
    · simp [dset, h, dlookup, ih]

theorem dlookup_dset_ne (d : Dict) {k k' : String} (v : PVal) (h : k' ≠ k) :
    dlookup (dset d k v) k' = dlookup d k' := by
  have hne : ¬(k = k') := fun hc => h hc.symm
  induction d with
  | nil => simp [dset, dlookup, hne]
  | cons p rest ih =>
    obtain ⟨k0, v0⟩ := p
    by_cases h0 : k0 = k
    · subst h0
      simp [dset, dlookup, hne]
    · simp only [dset, h0, if_false, dlookup]
      by_cases h1 : k0 = k'
      · simp [h1]
      · simp [h1, ih]

theorem dkeys_dset_of_mem (d : Dict) {k : String} (v : PVal) (h : k ∈ dkeys d) :
    dkeys (dset d k v) = dkeys d := by
  induction d with
  | nil => simp [dkeys] at h
  | cons p rest ih =>
    obtain ⟨k', v'⟩ := p
    have h' : k = k' ∨ k ∈ dkeys rest := by
      simpa only [dkeys_cons, List.mem_cons] using h
    by_cases hk : k' = k
    · simp [dset, hk, dkeys_cons]
    · have hmem : k ∈ dkeys rest := by
        rcases h' with h1 | h1
        · exact absurd h1.symm hk
        · exact h1
      simp only [dset, hk, if_false, dkeys_cons, ih hmem]

theorem remote_value_of_lookup_none {R : Dict} {k : String}
    (h : dlookup R k = Option.none) :
    remote_value R k = Except.error (PyErr.keyError k) := by
  simp [remote_value, h]

theorem remote_value_isOk_lookup {R : Dict} {k : String}
    (h : (remote_value R k).isOk = true) : (dlookup R k).isSome = true := by
  cases hl : dlookup R k with
  | some v => rfl
  | none => rw [remote_value_of_lookup_none hl] at h; simp [Except.isOk, Except.toBool] at h

theorem keyMatchesB_inv {P R : Dict} {k : String} (h : keyMatchesB P R k = true) :
    ∃ pv rv, dlookup P k = some pv ∧ remote_value R k = Except.ok rv ∧
      pyEq pv rv = true := by
  unfold keyMatchesB at h
  cases hl : dlookup P k with
  | none => simp [hl] at h
  | some pv =>
    cases hre : remote_value R k with
    | error e => simp [hl, hre] at h
    | ok rv => exact ⟨pv, rv, rfl, rfl, by simpa [hl, hre] using h⟩

/-- With every listed key present in the desired dict and fetchable from
the remote record, the `is_changed` scan completes and reports a change
exactly when some listed key fails to match. -/
theorem is_changed_go_ok (P R : Dict) (ks : List String)
    (h : ∀ k ∈ ks, (dlookup P k).isSome = true ∧ (remote_value R k).isOk = true) :
    is_changed_go P R ks = Except.ok (!ks.all (keyMatchesB P R)) := by
  induction ks with
  | nil => simp [is_changed_go]
  | cons k rest ih =>
    obtain ⟨hp, hr⟩ := h k (List.mem_cons_self k rest)
    obtain ⟨pv, hpv⟩ := Option.isSome_iff_exists.mp hp
    obtain ⟨rv, hrv⟩ : ∃ rv, remote_value R k = Except.ok rv := by
      cases hre : remote_value R k with
      | ok rv => exact ⟨rv, rfl⟩
      | error e => rw [hre] at hr; simp [Except.isOk, Except.toBool] at hr
    have hkm : keyMatchesB P R k = pyEq pv rv := by
      simp [keyMatchesB, hpv, hrv]
    have ihr := ih (fun k' hk' => h k' (List.mem_cons_of_mem _ hk'))
    cases hpe : pyEq pv rv with
    | false => simp [is_changed_go, hrv, hpv, hpe, hkm]
    | true => simp [is_changed_go, hrv, hpv, hpe, hkm, ihr]

/-- Keys that match are skipped by the `is_changed` scan. -/
theorem is_changed_go_append (P R : Dict) (ks₁ ks₂ : List String)
    (h : ∀ k ∈ ks₁, keyMatchesB P R k = true) :
    is_changed_go P R (ks₁ ++ ks₂) = is_changed_go P R ks₂ := by
  induction ks₁ with
  | nil => simp
  | cons k rest ih =>
    obtain ⟨pv, rv, hpv, hrv, hpe⟩ := keyMatchesB_inv (h k (List.mem_cons_self k rest))
    have ihr := ih (fun k' hk' => h k' (List.mem_cons_of_mem _ hk'))
    simp [is_changed_go, hrv, hpv, hpe, ihr]

/-- If the `is_changed` scan completed with `False`, every listed key's
remote value was fetched (present and, for `type_data`, decoded). -/
theorem is_changed_go_ok_false_fetch (P R : Dict) (ks : List String)
    (h : is_changed_go P R ks = Except.ok false) :
    ∀ k ∈ ks, (remote_value R k).isOk = true := by
  induction ks with
  | nil => simp
  | cons k rest ih =>
    intro k' hk'
    unfold is_changed_go at h
    rcases List.mem_cons.mp hk' with h1 | h1
    · subst h1
      cases hre : remote_value R k' with
      | ok rv => rfl
      | error e => rw [hre] at h; simp at h
    · cases hre : remote_value R k with
      | error e => rw [hre] at h; simp at h
      | ok rv =>
        rw [hre] at h
        simp only at h
        cases hl : dlookup P k with
        | none => rw [hl] at h; simp at h
        | some pv =>
          rw [hl] at h
          simp only at h
          cases hpe : pyEq pv rv with
          | false => rw [hpe] at h; simp at h
          | true =>
            rw [hpe] at h
            simp only [if_true] at h
            exact ih h k' h1

/-- If every key of `P` matches, `is_changed` returns `False` ("no
change"). -/
theorem is_changed_of_all_match {P R : Dict}
    (h : ∀ k ∈ dkeys P, keyMatchesB P R k = true) :
    is_changed P R = Except.ok false := by
  have := is_changed_go_append P R (dkeys P) [] h
  simpa [is_changed, is_changed_go] using this

/-- `check_required` on a real module and a dict-valued `monitor`
parameter: `fail_json` naming the first falsy required field, success
when there is none. -/
theorem check_required_eq (mparams : Dict) (mkvs : Dict) (mt : String)
    (fields : List String) :
    check_required (PyObj.moduleObj mparams) (PVal.dict mkvs) mt fields =
      match firstMissing mkvs fields with
      | some f => Except.error (PyErr.failJson (f ++ " is required for " ++ mt))
      | Option.none => Except.ok () := by
  induction fields with
  | nil => simp [check_required, firstMissing]
  | cons f rest ih =>
    cases ht : truthy (dgetDefault mkvs f) with
    | true => simp [check_required, py_get, ht, firstMissing, List.find?] at ih ⊢; exact ih
    | false => simp [check_required, py_get, ht, fail_json, firstMissing, List.find?]

/-- If the `state` subscript succeeds and `build_payload` aborts, `main`
aborts with that error before issuing any request. -/
theorem main_core_build_error (barg : PyObj) (params : Dict) (srv : Server)
    {st : PVal} (hstate : dlookup params "state" = some st)
    {e : PyErr} (hbuild : build_payload barg = Except.error e) :
    main_core barg params srv = (Outcome.crashed e, []) := by
  simp [main_core, dget, hstate, hbuild]

/-- `state=present`, lookup empty: `POST` the payload, exit changed with
the response as message. -/
theorem main_core_present_notfound (barg : PyObj) (params : Dict) (srv : Server)
    (hstate : dlookup params "state" = some (PVal.str "present"))
    {payload : Dict} (hbuild : build_payload barg = Except.ok payload)
    {tagv : PVal} (htag : dlookup payload "tag" = some tagv)
    (hlk : srv.lookupResult = []) :
    main_core barg params srv =
      (Outcome.exited true (some srv.postResult),
       [Request.get ("/api/monitor?tag=" ++ py_fstr tagv),
        Request.post "/api/monitor" payload]) := by
  simp [main_core, dget, hstate, hbuild, htag, hlk, pyEq_str_str]

/-- `state=present`, lookup non-empty, no difference against the first
record: exit unchanged with the "already exists" message, after only the
`GET`. -/
theorem main_core_present_found_nochange (barg : PyObj) (params : Dict) (srv : Server)
    (hstate : dlookup params "state" = some (PVal.str "present"))
    {payload : Dict} (hbuild : build_payload barg = Except.ok payload)
    {tagv : PVal} (htag : dlookup payload "tag" = some tagv)
    {existing0 : Dict} {others : List Dict}
    (hlk : srv.lookupResult = existing0 :: others)
    (hic : is_changed payload existing0 = Except.ok false) :
    main_core barg params srv =
      (Outcome.exited false
        (some (PVal.str ("Monitor " ++ py_fstr tagv ++ " with the same parameters already exists"))),
       [Request.get ("/api/monitor?tag=" ++ py_fstr tagv)]) := by
  simp [main_core, dget, hstate, hbuild, htag, hlk, hic, pyEq_str_str]

/-- `state=present`, lookup non-empty, difference against the first
record: `PUT` the payload (with the record's `id` added) at that `id`,
exit changed. -/
theorem main_core_present_found_change (barg : PyObj) (params : Dict) (srv : Server)
    (hstate : dlookup params "state" = some (PVal.str "present"))
    {payload : Dict} (hbuild : build_payload barg = Except.ok payload)
    {tagv : PVal} (htag : dlookup payload "tag" = some tagv)
    {existing0 : Dict} {others : List Dict}
    (hlk : srv.lookupResult = existing0 :: others)
    (hic : is_changed payload existing0 = Except.ok true)
    {idv : PVal} (hid : dlookup existing0 "id" = some idv) :
    main_core barg params srv =
      (Outcome.exited true Option.none,
       [Request.get ("/api/monitor?tag=" ++ py_fstr tagv),
        Request.put ("/api/monitor/" ++ py_fstr idv) (dset payload "id" idv)]) := by
  simp [main_core, dget, hstate, hbuild, htag, hlk, hic, hid, pyEq_str_str]

/-- `state=absent`, lookup empty: exit unchanged after only the `GET`. -/
theorem main_core_absent_notfound (barg : PyObj) (params : Dict) (srv : Server)
    (hstate : dlookup params "state" = some (PVal.str "absent"))
    {payload : Dict} (hbuild : build_payload barg = Except.ok payload)
    {tagv : PVal} (htag : dlookup payload "tag" = some tagv)
    (hlk : srv.lookupResult = []) :
    main_core barg params srv =
      (Outcome.exited false (some (PVal.str ("No monitor " ++ py_fstr tagv ++ " found"))),
       [Request.get ("/api/monitor?tag=" ++ py_fstr tagv)]) := by
  simp [main_core, dget, hstate, hbuild, htag, hlk, pyEq_str_str]

/-- `state=absent`, lookup non-empty: `DELETE` at the first record's
`id`, exit changed with a message naming the tag. -/
theorem main_core_absent_found (barg : PyObj) (params : Dict) (srv : Server)
    (hstate : dlookup params "state" = some (PVal.str "absent"))
    {payload : Dict} (hbuild : build_payload barg = Except.ok payload)
    {tagv : PVal} (htag : dlookup payload "tag" = some tagv)
    {existing0 : Dict} {others : List Dict}
    (hlk : srv.lookupResult = existing0 :: others)
    {idv : PVal} (hid : dlookup existing0 "id" = some idv) :
    main_core barg params srv =
      (Outcome.exited true (some (PVal.str ("Monitor " ++ py_fstr tagv ++ " was removed"))),
       [Request.get ("/api/monitor?tag=" ++ py_fstr tagv),
        Request.delete ("/api/monitor/" ++ py_fstr idv)]) := by
  simp [main_core, dget, hstate, hbuild, htag, hlk, hid, pyEq_str_str]

/-- `build_payload` handed the plain params dict — the argument `main`
actually passes — dies on the `module.params` attribute access at once. -/
theorem build_payload_dictObj (d : Dict) :
    build_payload (PyObj.dictObj d) = Except.error (PyErr.attributeError "params") := rfl

/-- The monitor types in the `required_fields` table are not the
host-probe types. -/
theorem required_fields_ne_host_probe {mt : String} {fields : List String}
    (h : required_fields mt = some fields) : mt ≠ "TCP" ∧ mt ≠ "PING" := by
  unfold required_fields at h
  split_ifs at h with h1 h2 h3
  · subst h1; exact ⟨by decide, by decide⟩
  · subst h2; exact ⟨by decide, by decide⟩
  · subst h3; exact ⟨by decide, by decide⟩

/-! ## Claims -/

/-- C10: `main` passes the plain parameter dictionary `module.params` to
`build_payload`, which immediately reads the `.params` attribute of its
argument (and, on the validation-failure path, would call `.fail_json`
on it); consequently `build_payload` as invoked from `main` never
returns a payload normally for any input — provided only that the
`state` subscript preceding the call succeeds, every invocation crashes
with an attribute-access error before any remote request is issued. -/
theorem C10_main_always_attribute_error (params : Dict) (srv : Server) (st : PVal)
    (hstate : dlookup params "state" = some st) :
    build_payload (PyObj.dictObj params) = Except.error (PyErr.attributeError "params") ∧
    main_model params srv = (Outcome.crashed (PyErr.attributeError "params"), []) :=
  ⟨build_payload_dictObj params,
   main_core_build_error _ params srv hstate (build_payload_dictObj params)⟩

/-- Witness for C10 at a concrete, fully populated invocation. -/
theorem C10_witness :
    main_model (pingParams "present" "t10") ⟨[], PVal.none⟩
      = (Outcome.crashed (PyErr.attributeError "params"), []) :=
  (C10_main_always_attribute_error (pingParams "present" "t10") ⟨[], PVal.none⟩
    (PVal.str "present") rfl).2

/-- C1 (the reconciler flow the claim describes, proved on `main_fixed`,
the flow with the `build_payload` call-site slip repaired; the shipped
`main` crashes before reaching it — see C10): with `state=present` and a
lookup returning at least one record, no difference against the first
record exits `changed=false` with an "existing match" message after only
the lookup, and a difference issues a full-replace `PUT` addressed by
the existing record's `id` and exits `changed=true`. -/
theorem C1_present_found_update_or_noop (params : Dict) (srv : Server)
    (hstate : dlookup params "state" = some (PVal.str "present"))
    (payload : Dict) (hbuild : build_payload (PyObj.moduleObj params) = Except.ok payload)
    (tagv : PVal) (htag : dlookup payload "tag" = some tagv)
    (existing0 : Dict) (others : List Dict)
    (hlk : srv.lookupResult = existing0 :: others) :
    (is_changed payload existing0 = Except.ok false →
      main_fixed params srv =
        (Outcome.exited false
          (some (PVal.str ("Monitor " ++ py_fstr tagv ++ " with the same parameters already exists"))),
         [Request.get ("/api/monitor?tag=" ++ py_fstr tagv)])) ∧
    (∀ idv, is_changed payload existing0 = Except.ok true →
      dlookup existing0 "id" = some idv →
      main_fixed params srv =
        (Outcome.exited true Option.none,
         [Request.get ("/api/monitor?tag=" ++ py_fstr tagv),
          Request.put ("/api/monitor/" ++ py_fstr idv) (dset payload "id" idv)])) :=
  ⟨fun hic => main_core_present_found_nochange _ params srv hstate hbuild htag hlk hic,
   fun _ hic hid => main_core_present_found_change _ params srv hstate hbuild htag hlk hic hid⟩

/-- Witness for C1: a concrete matching remote record yields
`changed=false` after only the `GET`. -/
theorem C1_witness :
    main_fixed (pingParams "present" "t1") ⟨[pingRemote "t1"], PVal.none⟩
      = (Outcome.exited false
          (some (PVal.str "Monitor t1 with the same parameters already exists")),
         [Request.get "/api/monitor?tag=t1"]) :=
  (C1_present_found_update_or_noop (pingParams "present" "t1")
    ⟨[pingRemote "t1"], PVal.none⟩ rfl (pingPayload "t1") rfl (PVal.str "t1") rfl
    (pingRemote "t1") [] rfl).1 (by decide)

/-- C2 (the reconciler flow the claim describes, proved on `main_fixed`;
the shipped `main` crashes before reaching it — see C10): with
`state=present` and an empty lookup result, the flow issues a `POST` of
the built payload and exits `changed=true`, the create response (which
carries the new record's identifier when the server returns it) becoming
the result message. -/
theorem C2_present_notfound_creates (params : Dict) (srv : Server)
    (hstate : dlookup params "state" = some (PVal.str "present"))
    (payload : Dict) (hbuild : build_payload (PyObj.moduleObj params) = Except.ok payload)
    (tagv : PVal) (htag : dlookup payload "tag" = some tagv)
    (hlk : srv.lookupResult = []) :
    main_fixed params srv =
      (Outcome.exited true (some srv.postResult),
       [Request.get ("/api/monitor?tag=" ++ py_fstr tagv),
        Request.post "/api/monitor" payload]) :=
  main_core_present_notfound _ params srv hstate hbuild htag hlk

/-- Witness for C2: the spec's Create scenario (an API-type descriptor
with url/method/timeout, empty lookup result) issues the `POST` and
exits `changed=true`. -/
theorem C2_witness :
    main_fixed (apiParams "present" "t2") ⟨[], PVal.dict [("id", PVal.str "new1")]⟩
      = (Outcome.exited true (some (PVal.dict [("id", PVal.str "new1")])),
         [Request.get "/api/monitor?tag=t2",
          Request.post "/api/monitor" (apiPayload "t2")]) :=
  C2_present_notfound_creates (apiParams "present" "t2")
    ⟨[], PVal.dict [("id", PVal.str "new1")]⟩ rfl (apiPayload "t2") rfl
    (PVal.str "t2") rfl rfl

/-- C3 (the reconciler flow the claim describes, proved on `main_fixed`;
the shipped `main` crashes before reaching it — see C10): with
`state=absent`, an empty lookup performs no mutating call and exits
`changed=false`, while a non-empty lookup issues `DELETE` at the first
record's `id` and exits `changed=true` with a message naming the removed
tag. -/
theorem C3_absent_delete_or_noop (params : Dict) (srv : Server)
    (hstate : dlookup params "state" = some (PVal.str "absent"))
    (payload : Dict) (hbuild : build_payload (PyObj.moduleObj params) = Except.ok payload)
    (tagv : PVal) (htag : dlookup payload "tag" = some tagv) :
    (srv.lookupResult = [] →
      main_fixed params srv =
        (Outcome.exited false (some (PVal.str ("No monitor " ++ py_fstr tagv ++ " found"))),
         [Request.get ("/api/monitor?tag=" ++ py_fstr tagv)])) ∧
    (∀ existing0 others idv, srv.lookupResult = existing0 :: others →
      dlookup existing0 "id" = some idv →
      main_fixed params srv =
        (Outcome.exited true (some (PVal.str ("Monitor " ++ py_fstr tagv ++ " was removed"))),
         [Request.get ("/api/monitor?tag=" ++ py_fstr tagv),
          Request.delete ("/api/monitor/" ++ py_fstr idv)])) :=
  ⟨fun hlk => main_core_absent_notfound _ params srv hstate hbuild htag hlk,
   fun _ _ _ hlk hid => main_core_absent_found _ params srv hstate hbuild htag hlk hid⟩

/-- Witness for C3: the spec's Delete scenario — `state=absent`, one
record with id `abc` — issues `DELETE /abc` and exits `changed=true`
naming the tag. -/
theorem C3_witness :
    main_fixed (pingParams "absent" "t3") ⟨[pingRemote "t3"], PVal.none⟩
      = (Outcome.exited true (some (PVal.str "Monitor t3 was removed")),
         [Request.get "/api/monitor?tag=t3", Request.delete "/api/monitor/abc"]) :=
  (C3_absent_delete_or_noop (pingParams "absent" "t3") ⟨[pingRemote "t3"], PVal.none⟩
    rfl (pingPayload "t3") rfl (PVal.str "t3") rfl).2
    (pingRemote "t3") [] (PVal.str "abc") rfl rfl

/-- C8 (the fail-fast the claim describes, proved on `main_fixed`; on
the shipped `main` no invocation even reaches payload validation — see
C10): when payload building aborts via `fail_json` (the spec's
`ValidationError`), the flow reports exactly that error and issues no
request whatsoever. -/
theorem C8_validation_aborts_before_requests (params : Dict) (srv : Server) (st : PVal)
    (hstate : dlookup params "state" = some st) (msg : String)
    (hbuild : build_payload (PyObj.moduleObj params) = Except.error (PyErr.failJson msg)) :
    main_fixed params srv = (Outcome.crashed (PyErr.failJson msg), []) :=
  main_core_build_error _ params srv hstate hbuild

/-- Witness for C8: an API descriptor with no `url` aborts with the
validation message and an empty request trace. -/
theorem C8_witness :
    main_fixed (apiParamsNoUrl "present" "t8") ⟨[], PVal.none⟩
      = (Outcome.crashed (PyErr.failJson "url is required for API"), []) :=
  C8_validation_aborts_before_requests (apiParamsNoUrl "present" "t8") ⟨[], PVal.none⟩
    (PVal.str "present") rfl "url is required for API" (by decide)

/-- C9 (the idempotence the claim describes, proved on `main_fixed`; the
shipped `main` crashes on both runs — see C10): reconciling the same
descriptor twice with `state=present`, where the first lookup finds no
record and the store faithfully records the first run's write — the
second lookup returns a record agreeing with the posted payload on every
payload key, `type_data` decoding back to a Python-equal value — yields
`changed=true` then `changed=false`. -/
theorem C9_second_run_unchanged (params : Dict) (srv1 srv2 : Server)
    (hstate : dlookup params "state" = some (PVal.str "present"))
    (payload : Dict) (hbuild : build_payload (PyObj.moduleObj params) = Except.ok payload)
    (tagv : PVal) (htag : dlookup payload "tag" = some tagv)
    (hlk1 : srv1.lookupResult = [])
    (stored : Dict) (hlk2 : srv2.lookupResult = [stored])
    (hfaithful : ∀ k ∈ dkeys payload, keyMatchesB payload stored k = true) :
    main_fixed params srv1 =
      (Outcome.exited true (some srv1.postResult),
       [Request.get ("/api/monitor?tag=" ++ py_fstr tagv),
        Request.post "/api/monitor" payload]) ∧
    main_fixed params srv2 =
      (Outcome.exited false
        (some (PVal.str ("Monitor " ++ py_fstr tagv ++ " with the same parameters already exists"))),
       [Request.get ("/api/monitor?tag=" ++ py_fstr tagv)]) :=
  ⟨main_core_present_notfound _ params srv1 hstate hbuild htag hlk1,
   main_core_present_found_nochange _ params srv2 hstate hbuild htag hlk2
     (is_changed_of_all_match hfaithful)⟩

/-- Witness for C9: a concrete PING descriptor, an empty first lookup,
and a faithfully stored record for the second run. -/
theorem C9_witness :
    main_fixed (pingParams "present" "t9") ⟨[], PVal.dict [("id", PVal.str "abc")]⟩
      = (Outcome.exited true (some (PVal.dict [("id", PVal.str "abc")])),
         [Request.get "/api/monitor?tag=t9",
          Request.post "/api/monitor" (pingPayload "t9")]) ∧
    main_fixed (pingParams "present" "t9") ⟨[pingRemote "t9"], PVal.none⟩
      = (Outcome.exited false
          (some (PVal.str "Monitor t9 with the same parameters already exists")),
         [Request.get "/api/monitor?tag=t9"]) :=
  C9_second_run_unchanged (pingParams "present" "t9")
    ⟨[], PVal.dict [("id", PVal.str "abc")]⟩ ⟨[pingRemote "t9"], PVal.none⟩
    rfl (pingPayload "t9") rfl (PVal.str "t9") rfl rfl (pingRemote "t9") rfl (by decide)

/-- C4: for every payload `P` and remote record `R` from which every key
of `P` can be fetched (present and, for `type_data`, decodable — the
claim's "R has every key of P", "with R's type_data decoded before
comparison"), `is_changed` returns `False` iff every key of `P`
deep-equals the corresponding (decoded) value of `R`; and replacing the
value of any single key of `P` by one not Python-equal to the old value,
holding the rest fixed, makes it return `True`. -/
theorem C4_no_change_iff_deep_equal (P R : Dict)
    (hok : ∀ k ∈ dkeys P, (remote_value R k).isOk = true) :
    (is_changed P R = Except.ok false ↔ allB P R = true) ∧
    (∀ k v2, k ∈ dkeys P → allB P R = true → pyEq v2 (dgetDefault P k) = false →
      is_changed (dset P k v2) R = Except.ok true) := by
  have hmain : is_changed P R = Except.ok (!allB P R) := by
    have h := is_changed_go_ok P R (dkeys P)
      (fun k hk => ⟨dlookup_isSome_of_mem_dkeys hk, hok k hk⟩)
    simpa [is_changed, allB] using h
  constructor
  · rw [hmain]
    constructor
    · intro h
      have h' : (!allB P R) = false := by injection h
      simpa using h'
    · intro h
      rw [h]
      rfl
  · intro k v2 hk hall hne
    have hkeys : dkeys (dset P k v2) = dkeys P := dkeys_dset_of_mem P v2 hk
    have hok2 : ∀ k' ∈ dkeys (dset P k v2), (remote_value R k').isOk = true := by
      rw [hkeys]; exact hok
    have hmain2 : is_changed (dset P k v2) R = Except.ok (!allB (dset P k v2) R) := by
      have h := is_changed_go_ok (dset P k v2) R (dkeys (dset P k v2))
        (fun k' hk' => ⟨dlookup_isSome_of_mem_dkeys hk', hok2 k' hk'⟩)
      simpa [is_changed, allB] using h
    obtain ⟨pv, hpv⟩ := Option.isSome_iff_exists.mp (dlookup_isSome_of_mem_dkeys hk)
    have hkm : keyMatchesB P R k = true :=
      List.all_eq_true.mp (by simpa [allB] using hall) k hk
    obtain ⟨pv', rv, hpv', hrv, hpe⟩ := keyMatchesB_inv hkm
    have hpv2 : pv = pv' := by
      rw [hpv] at hpv'
      injection hpv'
    subst hpv2
    have hne2 : pyEq v2 pv = false := by
      rwa [show dgetDefault P k = pv by simp [dgetDefault, hpv]] at hne
    have hnew : keyMatchesB (dset P k v2) R k = false := by
      simp [keyMatchesB, dlookup_dset_self, hrv, pyEq_trans_ne hpe hne2]
    have hall2 : allB (dset P k v2) R = false := by
      cases hval : allB (dset P k v2) R with
      | false => rfl
      | true =>
        have := List.all_eq_true.mp (by simpa [allB] using hval) k (hkeys ▸ hk)
        rw [hnew] at this
        cases this
    rw [hmain2, hall2]
    rfl

/-- Witness for C4: a concrete matching payload/record pair compares as
unchanged. -/
theorem C4_witness :
    is_changed (pingPayload "t4") (pingRemote "t4") = Except.ok false :=
  (C4_no_change_iff_deep_equal (pingPayload "t4") (pingRemote "t4") (by decide)).1.mpr
    (by decide)

/-- C5 counterexample: the code performs no validation at all for the
host-probe family — a `PING` descriptor whose host list is empty builds
successfully instead of failing with a validation error naming the
missing field, contradicting the claim for the TCP/PING rows of the
table. -/
theorem C5_counterexample :
    build_payload (PyObj.moduleObj (pingParamsEmptyHosts "present" "t5")) =
      Except.ok
        [("name", PVal.str "Kener Monitor"), ("tag", PVal.str "t5"),
         ("status", PVal.str "ACTIVE"), ("cron", PVal.str "* * * * *"),
         ("category_name", PVal.str "Home"), ("monitor_type", PVal.str "PING"),
         ("type_data", PVal.dict [("hosts", PVal.list [])])] := by decide

/-- C5 as amended: for monitor types in the `required_fields` table
(API/SSL/DNS), `build_payload` fails naming the first required field
whose value is absent or falsy and otherwise returns the normalized
payload; for the host-probe family (TCP/PING) no typeData validation is
performed — the `hosts` parameter is wrapped as-is, an empty host list
included. -/
theorem C5_subtype_gating_amended (params : Dict)
    (vname vtag vstatus vcron vcat : PVal) (mt : String)
    (hmt : dlookup params "monitor_type" = some (PVal.str mt))
    (hname : dlookup params "name" = some vname)
    (htag : dlookup params "tag" = some vtag)
    (hstatus : dlookup params "status" = some vstatus)
    (hcron : dlookup params "cron" = some vcron)
    (hcat : dlookup params "category_name" = some vcat) :
    (∀ mkvs fields f, dlookup params "monitor" = some (PVal.dict mkvs) →
      required_fields mt = some fields → firstMissing mkvs fields = some f →
      build_payload (PyObj.moduleObj params) =
        Except.error (PyErr.failJson (f ++ " is required for " ++ mt))) ∧
    (∀ mkvs fields, dlookup params "monitor" = some (PVal.dict mkvs) →
      required_fields mt = some fields → firstMissing mkvs fields = Option.none →
      build_payload (PyObj.moduleObj params) =
        Except.ok
          [("name", vname), ("tag", vtag), ("status", vstatus), ("cron", vcron),
           ("category_name", vcat), ("monitor_type", PVal.str mt),
           ("type_data", PVal.dict mkvs)]) ∧
    (∀ hosts, (mt = "TCP" ∨ mt = "PING") → dlookup params "hosts" = some hosts →
      build_payload (PyObj.moduleObj params) =
        Except.ok
          [("name", vname), ("tag", vtag), ("status", vstatus), ("cron", vcron),
           ("category_name", vcat), ("monitor_type", PVal.str mt),
           ("type_data", PVal.dict [("hosts", hosts)])]) := by
  refine ⟨?_, ?_, ?_⟩
  · intro mkvs fields f hmon hreq hfirst
    have hne := required_fields_ne_host_probe hreq
    have hcond : (pyEq (PVal.str mt) (PVal.str "TCP") ||
        pyEq (PVal.str mt) (PVal.str "PING")) = false := by
      simp [pyEq_str_str, hne.1, hne.2]
    simp [build_payload, getattr_params, dget, hmt, hname, htag, hstatus, hcron, hcat,
      hcond, hreq, hmon, check_required_eq, hfirst]
  · intro mkvs fields hmon hreq hfirst
    have hne := required_fields_ne_host_probe hreq
    have hcond : (pyEq (PVal.str mt) (PVal.str "TCP") ||
        pyEq (PVal.str mt) (PVal.str "PING")) = false := by
      simp [pyEq_str_str, hne.1, hne.2]
    simp [build_payload, getattr_params, dget, hmt, hname, htag, hstatus, hcron, hcat,
      hcond, hreq, hmon, check_required_eq, hfirst]
  · intro hosts hmtv hhosts
    have hcond : (pyEq (PVal.str mt) (PVal.str "TCP") ||
        pyEq (PVal.str mt) (PVal.str "PING")) = true := by
      rcases hmtv with h | h <;> subst h <;> simp [pyEq_str_str]
    simp [build_payload, getattr_params, dget, hmt, hname, htag, hstatus, hcron, hcat,
      hcond, hhosts]

/-- Witness for the amended C5: an API descriptor missing `url` fails
naming `url`, and the empty-hosts PING descriptor builds. -/
theorem C5_witness :
    build_payload (PyObj.moduleObj (apiParamsNoUrl "present" "t5w")) =
      Except.error (PyErr.failJson "url is required for API") :=
  (C5_subtype_gating_amended (apiParamsNoUrl "present" "t5w")
    (PVal.str "Kener Monitor") (PVal.str "t5w") (PVal.str "ACTIVE")
    (PVal.str "* * * * *") (PVal.str "Home") "API"
    rfl rfl rfl rfl rfl rfl).1
    [("method", PVal.str "GET"), ("timeout", PVal.int 3000)]
    ["url", "method", "timeout"] "url" rfl rfl (by decide)

/-- C6 counterexample: a remote record lacking a key the payload declares
makes `is_changed` raise `KeyError` instead of reporting a difference —
it neither returns `True` nor returns at all. -/
theorem C6_counterexample :
    is_changed [("name", PVal.str "a")] [] = Except.error (PyErr.keyError "name") ∧
    is_changed [("name", PVal.str "a")] [] ≠ Except.ok true := by decide

/-- C6 as amended: if the remote record lacks a key the payload declares,
`is_changed` never reports "no change", and when the scan reaches the
missing key (immediately, if it is the payload's first key) it fails
with a `KeyError` naming it rather than treating the absence as a
difference. -/
theorem C6_missing_key_raises (P R : Dict) (k : String)
    (hk : k ∈ dkeys P) (hmiss : dlookup R k = Option.none) :
    is_changed P R ≠ Except.ok false ∧
    (∀ rest, dkeys P = k :: rest → is_changed P R = Except.error (PyErr.keyError k)) := by
  constructor
  · intro hc
    have h := is_changed_go_ok_false_fetch P R (dkeys P) (by simpa [is_changed] using hc) k hk
    rw [remote_value_of_lookup_none hmiss] at h
    simp [Except.isOk, Except.toBool] at h
  · intro rest hrest
    simp [is_changed, hrest, is_changed_go, remote_value_of_lookup_none hmiss]

/-- Witness for the amended C6 at a concrete missing key. -/
theorem C6_witness :
    is_changed [("tag", PVal.str "t6")] [("other", PVal.int 1)] =
      Except.error (PyErr.keyError "tag") :=
  (C6_missing_key_raises [("tag", PVal.str "t6")] [("other", PVal.int 1)] "tag"
    (by decide) (by decide)).2 [] rfl

/-- C7 counterexample: a remote record whose `type_data` cannot be
parsed (here the null the source's TODO comment acknowledges) does not
make `is_changed` fail fatally when an earlier key already differs — the
scan returns `True` before ever reaching the decode. -/
theorem C7_counterexample :
    remote_value [("name", PVal.str "b"), ("type_data", PVal.none)] "type_data" =
      Except.error
        (PyErr.typeError "the JSON object must be str, bytes or bytearray, not NoneType") ∧
    is_changed [("name", PVal.str "a"), ("type_data", PVal.dict [])]
      [("name", PVal.str "b"), ("type_data", PVal.none)] = Except.ok true := by decide

/-- C7 as amended: the remote `type_data` is decoded when the scan
reaches that key, and against a remote record whose encoded `type_data`
cannot be fetched or parsed (unparseable string, null, or absent)
`is_changed` never returns `False` — it fails fatally with the decode
error once every key before `type_data` matches, and otherwise returns
`True` at an earlier differing key. -/
theorem C7_decode_failure_never_no_change (P R : Dict) (e : PyErr)
    (hk : "type_data" ∈ dkeys P)
    (hbad : remote_value R "type_data" = Except.error e) :
    is_changed P R ≠ Except.ok false ∧
    (∀ ks1 ks2, dkeys P = ks1 ++ "type_data" :: ks2 →
      (∀ k ∈ ks1, keyMatchesB P R k = true) →
      is_changed P R = Except.error e) := by
  constructor
  · intro hc
    have h := is_changed_go_ok_false_fetch P R (dkeys P)
      (by simpa [is_changed] using hc) "type_data" hk
    rw [hbad] at h
    simp [Except.isOk, Except.toBool] at h
  · intro ks1 ks2 hsplit hmatch
    have hskip := is_changed_go_append P R ks1 ("type_data" :: ks2) hmatch
    calc is_changed P R = is_changed_go P R (ks1 ++ "type_data" :: ks2) := by
          rw [is_changed, hsplit]
      _ = is_changed_go P R ("type_data" :: ks2) := hskip
      _ = Except.error e := by simp [is_changed_go, hbad]

/-- Witness for the amended C7: every key before `type_data` matches and
the stored `type_data` is not valid JSON, so the scan fails with the
decode error. -/
theorem C7_witness :
    is_changed [("name", PVal.str "x"), ("type_data", PVal.dict [])]
      [("name", PVal.str "x"), ("type_data", PVal.str "not json")] =
      Except.error (PyErr.jsonDecodeError "not json") :=
  (C7_decode_failure_never_no_change
    [("name", PVal.str "x"), ("type_data", PVal.dict [])]
    [("name", PVal.str "x"), ("type_data", PVal.str "not json")]
    (PyErr.jsonDecodeError "not json") (by decide) (by decide)).2
    ["name"] [] rfl (by decide)

end Kener
